import Mathlib

/-!
Verification of the brand/locale resolution and cache-invalidation-on-mutation
logic of a Next.js tutorial repository.

The embedding follows the TypeScript sources:
* `src/config/brands.ts` — the static brand table and `getCurrentBrand`;
* `src/i18n/config.ts` / `src/i18n/request.ts` — the global default locale and
  the request-time locale resolution callback;
* the server actions `createUser` / `deleteUser` and the API route handler
  `POST /api/users`, which perform input validation and then call
  `revalidatePath` on a hard-coded list of paths.

JavaScript truthiness matters in several places (`x || y`, `!locale`,
`!name`): an absent value (`undefined` / `null`) and the empty string are
both falsy.  Absent values are modelled with `Option String` and the `||`
fallback on strings with `jsOr`.
-/

namespace NextTutorial

/-- JavaScript `a || b` for strings: the empty string is falsy. -/
def jsOr (a b : String) : String := if a = "" then b else a

/-- Brand record, after `BrandConfig` in `src/config/brands.ts`. -/
structure BrandConfig where
  id : String
  name : String
  primaryColor : String
  secondaryColor : String
  accentColor : String
  logo : String
  defaultLocale : String
  supportedLocales : List String
deriving DecidableEq

/-- The closed set of configured brand identifiers (`BrandId` in the source). -/
inductive BrandId where
  | brandA
  | brandB
  | brandC
deriving DecidableEq

/-- The string key of a configured brand identifier. -/
def BrandId.key : BrandId → String
  | .brandA => "brand-a"
  | .brandB => "brand-b"
  | .brandC => "brand-c"

/-- The static brand table `brands` of `src/config/brands.ts`. -/
def brands : BrandId → BrandConfig
  | .brandA =>
    { id := "brand-a", name := "Brand A"
      primaryColor := "#3b82f6", secondaryColor := "#1e40af", accentColor := "#60a5fa"
      logo := "/logos/brand-a.svg"
      defaultLocale := "en", supportedLocales := ["en", "es", "fr"] }
  | .brandB =>
    { id := "brand-b", name := "Brand B"
      primaryColor := "#10b981", secondaryColor := "#059669", accentColor := "#34d399"
      logo := "/logos/brand-b.svg"
      defaultLocale := "en", supportedLocales := ["en", "de", "it"] }
  | .brandC =>
    { id := "brand-c", name := "Brand C"
      primaryColor := "#f59e0b", secondaryColor := "#d97706", accentColor := "#fbbf24"
      logo := "/logos/brand-c.svg"
      defaultLocale := "en", supportedLocales := ["en", "ja", "zh"] }

/-- Key lookup in the brand table: `brands[brandId]` yields `undefined`
(here `none`) for a string that is not a configured key. -/
def brandTableLookup (s : String) : Option BrandId :=
  if s = "brand-a" then some .brandA
  else if s = "brand-b" then some .brandB
  else if s = "brand-c" then some .brandC
  else none

/-- `getCurrentBrand` of `src/config/brands.ts`, with the environment value
`process.env.NEXT_PUBLIC_BRAND` made an explicit parameter:
`const brandId = (process.env.NEXT_PUBLIC_BRAND as BrandId) || 'brand-a';
return brands[brandId] || brands['brand-a'];`. -/
def getCurrentBrand (env : Option String) : BrandConfig :=
  let brandId := jsOr (env.getD "") "brand-a"
  match brandTableLookup brandId with
  | some bid => brands bid
  | none => brands .brandA

/-- `defaultLocale` of `src/i18n/config.ts`. -/
def defaultLocale : String := "en"

/-- The locale resolution of the `getRequestConfig` callback in
`src/i18n/request.ts`, with the active brand made an explicit parameter:
`if (!locale || !brandLocales.includes(locale)) { locale = brand.defaultLocale || defaultLocale; }`.
Note `!locale` is true both for an absent locale and for the empty string. -/
def resolveLocale (requested : Option String) (brand : BrandConfig) : String :=
  match requested with
  | none => jsOr brand.defaultLocale defaultLocale
  | some l =>
    if l = "" ∨ l ∉ brand.supportedLocales then jsOr brand.defaultLocale defaultLocale
    else l

/-- Result record of the server actions (`ActionState` in the source),
with `data` as the `(name, email)` pair when present. -/
structure ActionState where
  success : Bool
  message : Option String := none
  error : Option String := none
  data : Option (String × String) := none
deriving DecidableEq

/-- The name validation of `createUser`:
`!name || name.trim().length === 0` (a `null` field, the empty string, or a
blank string fail). -/
def nameInvalid (name : Option String) : Bool :=
  name.isNone || name.getD "" == "" || (name.getD "").trim.length == 0

/-- The email validation of `createUser`:
`!email || !email.includes('@')`. -/
def emailInvalid (email : Option String) : Bool :=
  email.isNone || email.getD "" == "" || !((email.getD "").contains '@')

/-- The `createUser` server action of the SSG example's actions file.  The
two form fields come from `formData.get` (`null` is `none`); `now` stands
for the ambient clock, which the action never consults.  The second
component collects the paths passed to `revalidatePath`, in call order. -/
def createUser (name email : Option String) (_now : Nat) :
    ActionState × List String :=
  if nameInvalid name then
    ({ success := false, error := some "Name is required" }, [])
  else if emailInvalid email then
    ({ success := false, error := some "Valid email is required" }, [])
  else
    ({ success := true
       message := some ("User " ++ name.getD "" ++ " created successfully!")
       data := some (name.getD "", email.getD "") },
     ["/users", "/"])

/-- The `deleteUser` server action: `if (!userId)` rejects the empty id;
otherwise `revalidatePath('/users')`, `revalidatePath('/')`,
`revalidatePath('/users/' + userId)` run. -/
def deleteUser (userId : String) (_now : Nat) : ActionState × List String :=
  if userId = "" then
    ({ success := false, error := some "User ID is required" }, [])
  else
    ({ success := true
       message := some ("User " ++ userId ++ " deleted successfully!") },
     ["/users", "/", "/users/" ++ userId])

/-- Response record of the API route handler, with the HTTP status made
explicit and `data` as the `(id, name, email)` triple when present. -/
structure ApiResponse where
  success : Bool
  status : Nat
  message : Option String := none
  error : Option String := none
  data : Option (String × String × String) := none
deriving DecidableEq

/-- The `POST /api/users` handler of `src/app/api/users/route.ts`:
`if (!name || !email)` yields a 400 error; otherwise the handler calls
`revalidatePath('/users')` and `revalidatePath('/')` and answers 201 with
`id: Date.now().toString()` — `now` models `Date.now()`. -/
def apiPostUsers (name email : Option String) (now : Nat) :
    ApiResponse × List String :=
  if name.isNone || name.getD "" == "" || email.isNone || email.getD "" == "" then
    ({ success := false, status := 400, error := some "Name and email are required" }, [])
  else
    ({ success := true, status := 201
       message := some "User created successfully"
       data := some (toString now, name.getD "", email.getD "") },
     ["/users", "/"])

/-- Modelled from the spec: the repository has no `computeInvalidationPaths`
function — the server actions and the API route hard-code their
`revalidatePath` calls — so this definition follows the spec's stated policy:
always the collection listing path and the root path, plus the single-entity
detail path when `entityId` is defined. -/
def computeInvalidationPaths (entityKind : String) (entityId : Option String) :
    List String :=
  match entityId with
  | none => ["/" ++ entityKind, "/"]
  | some i => ["/" ++ entityKind, "/", "/" ++ entityKind ++ "/" ++ i]

/-- A degenerate brand record whose supported-locale list contains the empty
string; no configured brand is like this, but the resolution contract is
stated over arbitrary brand records. -/
def cexBrandEmptyMember : BrandConfig :=
  { id := "cex-empty-member", name := "Cex"
    primaryColor := "", secondaryColor := "", accentColor := "", logo := ""
    defaultLocale := "de", supportedLocales := [""] }

/-- A degenerate brand record whose default locale is the empty string,
violating the configuration invariant. -/
def cexBrandEmptyDefault : BrandConfig :=
  { id := "cex-empty-default", name := "Cex"
    primaryColor := "", secondaryColor := "", accentColor := "", logo := ""
    defaultLocale := "", supportedLocales := ["en"] }

/-! ### Helper lemmas -/

/-- When the request is absent, empty, or unsupported, resolution takes the
fallback `brand.defaultLocale || defaultLocale`. -/
theorem resolveLocale_fallback (b : BrandConfig) (l : Option String)
    (h : l = none ∨ l = some "" ∨ ∀ s, l = some s → s ∉ b.supportedLocales) :
    resolveLocale l b = jsOr b.defaultLocale defaultLocale := by
  rcases h with h | h | h
  · subst h; rfl
  · subst h; simp [resolveLocale]
  · cases l with
    | none => rfl
    | some s =>
      have hs : s ∉ b.supportedLocales := h s rfl
      simp [resolveLocale, hs]

/-- A defined, non-empty, supported request is returned unchanged. -/
theorem resolveLocale_of_mem (b : BrandConfig) (s : String)
    (hs : s ≠ "") (hm : s ∈ b.supportedLocales) :
    resolveLocale (some s) b = s := by
  simp [resolveLocale, hs, hm]

/-- Case analysis for `resolveLocale`: either the fallback value is produced,
or the request was a non-empty supported locale and is returned unchanged. -/
theorem resolveLocale_cases (b : BrandConfig) (l : Option String) :
    resolveLocale l b = jsOr b.defaultLocale defaultLocale ∨
    ∃ s, l = some s ∧ s ≠ "" ∧ s ∈ b.supportedLocales ∧ resolveLocale l b = s := by
  cases l with
  | none => exact Or.inl rfl
  | some s =>
    by_cases h : s = "" ∨ s ∉ b.supportedLocales
    · exact Or.inl (by simp [resolveLocale, h])
    · push_neg at h
      exact Or.inr ⟨s, rfl, h.1, h.2, resolveLocale_of_mem b s h.1 h.2⟩

/-! ### Claim theorems -/

/-- C4: every configured brand has a non-empty supported-locale list that
contains its default locale. -/
theorem brands_defaultLocale_mem (bid : BrandId) :
    (brands bid).supportedLocales ≠ [] ∧
    (brands bid).defaultLocale ∈ (brands bid).supportedLocales := by
  cases bid <;> exact ⟨by decide, by decide⟩

/-- C7: brand resolution applied to a configured key returns that brand's
record unchanged, and the record's `id` field equals the key. -/
theorem getCurrentBrand_configured_key (bid : BrandId) :
    getCurrentBrand (some bid.key) = brands bid ∧
    (getCurrentBrand (some bid.key)).id = bid.key := by
  cases bid <;> exact ⟨by decide, by decide⟩

/-- C3: for an absent, empty, or unrecognized brand identifier, brand
resolution returns the default `brand-a` record and raises no error. -/
theorem getCurrentBrand_fallback_default :
    (∀ s : String, brandTableLookup s = none →
      getCurrentBrand (some s) = brands BrandId.brandA) ∧
    getCurrentBrand none = brands BrandId.brandA ∧
    getCurrentBrand (some "") = brands BrandId.brandA ∧
    getCurrentBrand (some "nonexistent-brand") = brands BrandId.brandA := by
  refine ⟨?_, by decide, by decide, by decide⟩
  intro s h
  by_cases hs : s = ""
  · subst hs; decide
  · simp [getCurrentBrand, jsOr, hs, h]

/-- Witness for C3 at the concrete unrecognized identifier. -/
theorem getCurrentBrand_fallback_default_w :
    getCurrentBrand (some "not-a-brand") = brands BrandId.brandA :=
  getCurrentBrand_fallback_default.1 "not-a-brand" (by decide)

/-- C6: with the brand resolved from `"brand-b"` and requested locale
`"fr"` (unsupported by brand-b), resolution returns `"en"`, brand-b's
default. -/
theorem brandB_fr_resolves_en :
    getCurrentBrand (some "brand-b") = brands BrandId.brandB ∧
    "fr" ∉ (brands BrandId.brandB).supportedLocales ∧
    resolveLocale (some "fr") (brands BrandId.brandB) = "en" := by
  refine ⟨by decide, by decide, ?_⟩
  decide

/-- Counterexample to C2 as stated: the code treats an empty-string request
as missing (`!locale`), so a defined, supported, empty request is not
returned unchanged; and an empty `defaultLocale` falls through to the global
default rather than being returned. -/
theorem resolveLocale_claim_cex :
    ("" ∈ cexBrandEmptyMember.supportedLocales ∧
      resolveLocale (some "") cexBrandEmptyMember ≠ "") ∧
    ("zz" ∉ cexBrandEmptyDefault.supportedLocales ∧
      resolveLocale (some "zz") cexBrandEmptyDefault ≠
        cexBrandEmptyDefault.defaultLocale) := by
  decide

/-- C2 (amended): a defined, non-empty, supported request is returned
unchanged; an absent, empty, or unsupported request yields
`brand.defaultLocale` when that is non-empty and the global default
otherwise (`jsOr`). -/
theorem resolveLocale_contract (b : BrandConfig) (l : Option String) :
    (∀ s, l = some s → s ≠ "" → s ∈ b.supportedLocales →
      resolveLocale l b = s) ∧
    ((l = none ∨ l = some "" ∨ ∀ s, l = some s → s ∉ b.supportedLocales) →
      resolveLocale l b = jsOr b.defaultLocale defaultLocale) := by
  constructor
  · intro s hl hs hm
    subst hl
    exact resolveLocale_of_mem b s hs hm
  · exact resolveLocale_fallback b l

/-- Witness for C2 (amended) on brand-a: a supported request survives, an
unsupported one falls back to the brand default. -/
theorem resolveLocale_contract_w :
    resolveLocale (some "es") (brands BrandId.brandA) = "es" ∧
    resolveLocale (some "xx") (brands BrandId.brandA) = "en" :=
  ⟨(resolveLocale_contract (brands BrandId.brandA) (some "es")).1 "es" rfl
      (by decide) (by decide),
   ((resolveLocale_contract (brands BrandId.brandA) (some "xx")).2
      (Or.inr (Or.inr (by intro s hs; cases hs; decide)))).trans (by decide)⟩

/-- C5: for every configured brand and every request (defined or absent),
the resolved locale is a member of the brand's supported locales. -/
theorem resolveLocale_mem_supported (bid : BrandId) (l : Option String) :
    resolveLocale l (brands bid) ∈ (brands bid).supportedLocales := by
  rcases resolveLocale_cases (brands bid) l with h | ⟨s, _, _, hm, hr⟩
  · rw [h]; cases bid <;> decide
  · rw [hr]; exact hm

/-- C10: resolution always returns a non-empty locale, and when the brand's
default locale is empty, the fallback branch returns the global default
`"en"`. -/
theorem resolveLocale_nonempty_global_fallback (b : BrandConfig) (l : Option String) :
    resolveLocale l b ≠ "" ∧
    (b.defaultLocale = "" →
      (l = none ∨ l = some "" ∨ ∀ s, l = some s → s ∉ b.supportedLocales) →
      resolveLocale l b = "en") := by
  constructor
  · rcases resolveLocale_cases b l with h | ⟨s, _, hs, _, hr⟩
    · rw [h]
      unfold jsOr defaultLocale
      by_cases hd : b.defaultLocale = "" <;> simp [hd]
    · rw [hr]; exact hs
  · intro hd hf
    rw [resolveLocale_fallback b l hf, hd]
    decide

/-- Witness for C10 on the degenerate brand with an empty default locale. -/
theorem resolveLocale_nonempty_global_fallback_w :
    resolveLocale none cexBrandEmptyDefault ≠ "" ∧
    resolveLocale none cexBrandEmptyDefault = "en" :=
  ⟨(resolveLocale_nonempty_global_fallback cexBrandEmptyDefault none).1,
   (resolveLocale_nonempty_global_fallback cexBrandEmptyDefault none).2 rfl
     (Or.inl rfl)⟩

/-- C1: the invalidation set always contains the collection listing path and
the root path; it contains the single-entity detail path exactly when the
entity id is defined; the two concrete `"users"` instances are the expected
sets; and the paths actually revalidated by `deleteUser`, `createUser` and
`POST /api/users` agree with the policy whenever any are emitted. -/
theorem computeInvalidationPaths_policy :
    (∀ k i, ("/" ++ k) ∈ computeInvalidationPaths k i ∧
      "/" ∈ computeInvalidationPaths k i) ∧
    (∀ k j, ("/" ++ k ++ "/" ++ j) ∈ computeInvalidationPaths k (some j)) ∧
    (∀ k j, ("/" ++ k ++ "/" ++ j) ∉ computeInvalidationPaths k none) ∧
    (computeInvalidationPaths "users" (some "42")).toFinset =
      ({"/users", "/users/42", "/"} : Finset String) ∧
    (computeInvalidationPaths "users" none).toFinset =
      ({"/users", "/"} : Finset String) ∧
    (∀ uid w, (deleteUser uid w).2 = [] ∨
      ((deleteUser uid w).2).toFinset =
        (computeInvalidationPaths "users" (some uid)).toFinset) ∧
    (∀ n e w, (createUser n e w).2 = [] ∨
      ((createUser n e w).2).toFinset =
        (computeInvalidationPaths "users" none).toFinset) ∧
    (∀ n e w, (apiPostUsers n e w).2 = [] ∨
      ((apiPostUsers n e w).2).toFinset =
        (computeInvalidationPaths "users" none).toFinset) := by
  refine ⟨?_, ?_, ?_, by decide, by decide, ?_, ?_, ?_⟩
  · intro k i; cases i <;> simp [computeInvalidationPaths]
  · intro k j; simp [computeInvalidationPaths]
  · intro k j h
    have h1 : ("/" : String).length = 1 := rfl
    simp only [computeInvalidationPaths, List.mem_cons, List.mem_singleton,
      List.not_mem_nil, or_false] at h
    rcases h with h | h <;>
      { have hlen := congrArg String.length h
        simp only [String.length_append, h1] at hlen
        omega }
  · intro uid w
    by_cases h : uid = ""
    · exact Or.inl (by simp [deleteUser, h])
    · refine Or.inr ?_
      have e1 : ("/" ++ "users" : String) = "/users" := rfl
      have e2 : ("/users" ++ "/" : String) = "/users/" := rfl
      simp only [deleteUser, computeInvalidationPaths, if_neg h, e1, e2]
  · intro n e w
    by_cases h1 : nameInvalid n = true
    · exact Or.inl (by simp [createUser, h1])
    · by_cases h2 : emailInvalid e = true
      · exact Or.inl (by simp [createUser, h1, h2])
      · refine Or.inr ?_
        simp only [createUser, h1, h2, if_false, Bool.false_eq_true, ite_false]
        decide
  · intro n e w
    by_cases h : (n.isNone || n.getD "" == "" || e.isNone || e.getD "" == "") = true
    · exact Or.inl (by simp [apiPostUsers, h])
    · refine Or.inr ?_
      simp only [apiPostUsers, h, Bool.false_eq_true, ite_false]
      decide

/-- Witness for C1 at the concrete `"users"` instances. -/
theorem computeInvalidationPaths_policy_w :
    "/users" ∈ computeInvalidationPaths "users" (some "42") ∧
    "/users/42" ∈ computeInvalidationPaths "users" (some "42") ∧
    "/users/42" ∉ computeInvalidationPaths "users" none :=
  ⟨(computeInvalidationPaths_policy.1 "users" (some "42")).1,
   computeInvalidationPaths_policy.2.1 "users" "42",
   computeInvalidationPaths_policy.2.2.1 "users" "42"⟩

/-- C8: with the ambient clock made explicit, the paths emitted by the
mutation handlers depend only on their declared inputs — two runs with the
same inputs but different clock values revalidate the same paths. -/
theorem mutation_paths_no_hidden_state (nf ef : Option String) (uid : String)
    (w w' : Nat) :
    (createUser nf ef w).2 = (createUser nf ef w').2 ∧
    (deleteUser uid w).2 = (deleteUser uid w').2 ∧
    (apiPostUsers nf ef w).2 = (apiPostUsers nf ef w').2 := by
  refine ⟨rfl, rfl, ?_⟩
  cases h : (nf.isNone || nf.getD "" == "" || ef.isNone || ef.getD "" == "") <;>
    simp [apiPostUsers, h]

/-- C9: when input validation fails — `createUser` with an invalid name or
email, `deleteUser` with an empty id — the action reports failure with an
error message and revalidates no path. -/
theorem mutation_error_no_invalidation (nf ef : Option String) (uid : String)
    (w : Nat) :
    ((nameInvalid nf = true ∨ emailInvalid ef = true) →
      (createUser nf ef w).1.success = false ∧
      ((createUser nf ef w).1).error.isSome = true ∧
      (createUser nf ef w).2 = []) ∧
    (uid = "" →
      (deleteUser uid w).1.success = false ∧
      ((deleteUser uid w).1).error.isSome = true ∧
      (deleteUser uid w).2 = []) := by
  constructor
  · intro h
    by_cases h1 : nameInvalid nf = true
    · simp [createUser, h1]
    · have h2 : emailInvalid ef = true := h.resolve_left h1
      simp [createUser, h1, h2]
  · intro h
    subst h
    simp [deleteUser]

/-- Witness for C9: a missing name and an empty user id both fail without
revalidation. -/
theorem mutation_error_no_invalidation_w :
    (createUser none (some "a@b.c") 0).1.success = false ∧
    (createUser none (some "a@b.c") 0).2 = [] ∧
    (deleteUser "" 0).2 = [] :=
  ⟨((mutation_error_no_invalidation none (some "a@b.c") "" 0).1
      (Or.inl (by decide))).1,
   ((mutation_error_no_invalidation none (some "a@b.c") "" 0).1
      (Or.inl (by decide))).2.2,
   ((mutation_error_no_invalidation none (some "a@b.c") "" 0).2 rfl).2.2⟩

end NextTutorial
